import Mathlib

/-!
Verification of the TTS adapter module of Open-LLM-VTuber
(`src/open_llm_vtuber/tts/cartesia_tts.py`, `piper_tts.py`, `voicevox_tts.py`)
against its natural-language specification.

The three adapters are shallowly embedded as pure Lean functions.
External effects are made explicit:

* the filesystem is an association list from paths to byte contents;
* each vendor backend (the Cartesia SDK call, the Piper model's
  `synthesize_wav`, the two Voicevox HTTP endpoints) is a function
  parameter returning `Except Err _` — `.error` models a raised Python
  exception (network failure, non-2xx status, inference failure);
* local file writes may fail: a flag (or a chunk index for the chunked
  Cartesia write) says whether/where `open`/`write` raises;
* prosody scales (`speed`, `pitch`, ...), Python floats that the code
  only stores and forwards without arithmetic, are embedded as `Rat`;
* `os.remove` is modelled as total removal from the filesystem map
  (its own `OSError` branch, cartesia_tts.py lines 147-150, is an
  external-filesystem failure outside this embedding).
-/

/-- A filesystem: list of (path, byte content) entries, later entries
shadowed by earlier ones with the same path. -/
abbrev FileSystem := List (String × List Nat)

/-- Whether a file exists at path `p` (Python `os.path.exists` /
`Path.exists`). -/
def fsExists (fs : FileSystem) (p : String) : Bool :=
  match fs with
  | [] => false
  | e :: t => (e.1 == p) || fsExists t p

/-- Create or truncate-and-write the file at `p` with content `c`
(Python `open(p, "wb")` followed by writes). -/
def fsWrite (fs : FileSystem) (p : String) (c : List Nat) : FileSystem :=
  (p, c) :: fs.filter (fun e => e.1 != p)

/-- Remove the file at `p` (Python `os.remove`). -/
def fsRemove (fs : FileSystem) (p : String) : FileSystem :=
  fs.filter (fun e => e.1 != p)

/-- Python exceptions that the adapters raise or catch. -/
inductive Err where
  /-- `ImportError`: a missing optional client library. -/
  | importError (msg : String)
  /-- `FileNotFoundError`: a missing local model file. -/
  | fileNotFoundError (msg : String)
  /-- Failure to construct the vendor client at construction time. -/
  | clientInitError (msg : String)
  /-- An exception raised by a vendor SDK call or model inference. -/
  | vendorError (msg : String)
  /-- `httpx.HTTPStatusError` from `raise_for_status` on a non-2xx reply. -/
  | httpStatusError (code : Nat)
  /-- An exception raised by local `open`/`write` while writing output. -/
  | writeError
deriving DecidableEq, Repr

/-- Modelled from the spec: `generate_cache_file_name` lives in
`tts_interface.py`, which is not among the source files; spec section 4.1
fixes it as a pure derivation, stem given -> `{cache_dir}/{stem}.{extension}`,
stem absent -> `{cache_dir}/{generated_unique_id}.{extension}`. The fresh
unique identifier is passed in as `freshId`; the cache directory is `cache`
(the directory the HTTP adapter ensures at construction). -/
def generate_cache_file_name (stem : Option String) (ext : String)
    (freshId : String) : String :=
  "cache/" ++ (stem.getD freshId) ++ "." ++ ext

/-! ## Cloud adapter (Cartesia, `cartesia_tts.py`) -/

/-- Output-format descriptor sent to Cartesia (`OutputFormat_WavParams` /
`OutputFormat_Mp3Params` dictionaries, lines 30-39). -/
structure OutputFormatParams where
  container : String
  sample_rate : Nat
  encoding : Option String
  bit_rate : Option Nat
deriving DecidableEq, Repr

/-- `wav_output_format` (lines 30-34). -/
def wav_output_format : OutputFormatParams :=
  { container := "wav", sample_rate := 44100,
    encoding := some "pcm_f32le", bit_rate := none }

/-- `mp3_output_format` (lines 35-39). -/
def mp3_output_format : OutputFormatParams :=
  { container := "mp3", sample_rate := 44100,
    encoding := none, bit_rate := some 128000 }

/-- The `generation_config` dictionary (lines 123-127). -/
structure GenerationConfig where
  volume : Rat
  speed : Rat
  emotion : String
deriving DecidableEq, Repr

/-- The `voice` selector dictionary (lines 128-131). -/
structure VoiceSelector where
  mode : String
  id : String
deriving DecidableEq, Repr

/-- The outbound synthesis request given to `client.tts.bytes`
(lines 118-132). -/
structure CartesiaRequest where
  output_format : OutputFormatParams
  model_id : String
  transcript : String
  language : String
  generation_config : GenerationConfig
  voice : VoiceSelector
deriving DecidableEq, Repr

/-- Configuration captured by the Cartesia `TTSEngine.__init__`
(lines 77-92). `client` is the stored vendor client handle, opaque;
`none` models a falsy `self.client`. -/
structure CartesiaEngine where
  api_key : String
  voice_id : String
  model_id : String
  output_format : String
  language : String
  emotion : String
  volume : Rat
  speed : Rat
  client : Option Unit
deriving DecidableEq, Repr

/-- The messages of the two construction-time errors and of the
uninitialized-client early return (lines 73-74, 107). -/
def cartesiaImportMsg : String :=
  "cartesia is required. Install with: pip install cartesia"

def cartesiaNoClientMsg : String :=
  "Cartesia client not initialized. Cannot generate audio."

/-- Cartesia `TTSEngine.__init__` (lines 48-92). `available` is
`CARTESIA_AVAILABLE`; `clientInit` is the outcome of `Cartesia(api_key=...)`.
When client construction raises, `self.client` is set to `None` and the
exception re-raised, so no instance is produced. -/
def cartesia_init (available : Bool) (clientInit : Except Err Unit)
    (api_key voice_id model_id output_format language emotion : String)
    (volume speed : Rat) : Except Err CartesiaEngine :=
  if available = false then
    .error (.importError cartesiaImportMsg)
  else
    match clientInit with
    | .error e => .error e
    | .ok _ =>
        .ok { api_key := api_key, voice_id := voice_id, model_id := model_id,
              output_format := output_format, language := language,
              emotion := emotion, volume := volume, speed := speed,
              client := some () }

/-- The target path of a Cartesia `generate_audio` call (line 109): the
configured `output_format` string is the extension passed to cache-name
derivation. -/
def cartesiaFileName (eng : CartesiaEngine) (stem : Option String)
    (freshId : String) : String :=
  generate_cache_file_name stem eng.output_format freshId

/-- The request built for `client.tts.bytes` (lines 111-132). -/
def cartesiaRequest (eng : CartesiaEngine) (text : String) : CartesiaRequest :=
  { output_format :=
      if eng.output_format = "wav" then wav_output_format else mp3_output_format,
    model_id := eng.model_id,
    transcript := text,
    language := eng.language,
    generation_config :=
      { volume := eng.volume, speed := eng.speed, emotion := eng.emotion },
    voice := { mode := "id", id := eng.voice_id } }

/-- The cleanup in the `except` block (lines 144-150): remove the target
file if it exists. -/
def cleanupPartial (fs : FileSystem) (p : String) : FileSystem :=
  if fsExists fs p then fsRemove fs p else fs

/-- Cartesia `generate_audio` (lines 94-153). `backend` is
`client.tts.bytes` returning the audio chunks or raising; `openOk` is
whether `open(speech_file_path, "wb")` succeeds; `writeFail = some k`
means the write of chunk index `k` raises (after the first `k` chunks are
written). Returns (result, filesystem, self): `.ok` a returned string,
`.error` a propagated exception; `self` is threaded to witness that the
method assigns no attribute. -/
def cartesia_generate (eng : CartesiaEngine)
    (backend : CartesiaRequest → Except Err (List (List Nat)))
    (openOk : Bool) (writeFail : Option Nat)
    (fs : FileSystem) (text : String) (stem : Option String)
    (freshId : String) :
    Except Err String × FileSystem × CartesiaEngine :=
  match eng.client with
  | none => (.ok cartesiaNoClientMsg, fs, eng)
  | some _ =>
      let file_name := cartesiaFileName eng stem freshId
      match backend (cartesiaRequest eng text) with
      | .error e => (.error e, cleanupPartial fs file_name, eng)
      | .ok chunks =>
          if openOk then
            match writeFail with
            | some k =>
                if k < chunks.length then
                  let fs1 := fsWrite fs file_name (List.flatten (chunks.take k))
                  (.error .writeError, cleanupPartial fs1 file_name, eng)
                else
                  (.ok file_name, fsWrite fs file_name (List.flatten chunks), eng)
            | none =>
                (.ok file_name, fsWrite fs file_name (List.flatten chunks), eng)
          else
            (.error .writeError, cleanupPartial fs file_name, eng)

/-! Basic filesystem lemmas. -/

theorem fsExists_fsRemove (fs : FileSystem) (p : String) :
    fsExists (fsRemove fs p) p = false := by
  induction fs with
  | nil => rfl
  | cons x t ih =>
      by_cases h : x.1 = p
      · have hc : (x.1 != p) = false := by simp [h]
        simp only [fsRemove, List.filter_cons, hc] at ih ⊢
        simpa using ih
      · have hc : (x.1 != p) = true := by simp [h]
        simp only [fsRemove, List.filter_cons, hc, if_true] at ih ⊢
        show ((x.1 == p) || _) = false
        rw [Bool.or_eq_false_iff]
        exact ⟨by simp [h], ih⟩

theorem fsExists_cleanupPartial (fs : FileSystem) (p : String) :
    fsExists (cleanupPartial fs p) p = false := by
  unfold cleanupPartial
  by_cases h : fsExists fs p
  · rw [if_pos h]
    exact fsExists_fsRemove fs p
  · rw [if_neg h]
    exact Bool.eq_false_iff.mpr h

theorem fsExists_fsWrite (fs : FileSystem) (p : String) (c : List Nat) :
    fsExists (fsWrite fs p c) p = true := by
  show ((p == p) || _) = true
  simp

/-! ## Local-model adapter (Piper, `piper_tts.py`) -/

/-- The `SynthesisConfig` built at construction (lines 84-91). -/
structure SynthesisConfig where
  volume : Rat
  length_scale : Rat
  noise_scale : Rat
  noise_w_scale : Rat
  normalize_audio : Bool
  speaker_id : Int
deriving DecidableEq, Repr

/-- Configuration captured by the Piper `TTSEngine.__init__` (lines 56-91).
`voice` is the loaded model handle, opaque. -/
structure PiperEngine where
  model_path : String
  speaker_id : Int
  length_scale : Rat
  noise_scale : Rat
  noise_w : Rat
  volume : Rat
  normalize_audio : Bool
  use_cuda : Bool
  voice : Unit
  syn_config : SynthesisConfig
deriving DecidableEq, Repr

def piperImportMsg : String :=
  "piper-tts is required. Install with: pip install piper-tts"

/-- Piper `TTSEngine.__init__` (lines 28-91). `available` is
`PIPER_AVAILABLE`; `loadResult` is the outcome of `PiperVoice.load`.
Order in the source: availability check, field capture, model-file
existence check, model load, synthesis-config construction. -/
def piper_init (available : Bool) (fs : FileSystem)
    (loadResult : Except Err Unit) (model_path : String) (speaker_id : Int)
    (length_scale noise_scale noise_w volume : Rat)
    (normalize_audio use_cuda : Bool) : Except Err PiperEngine :=
  if available = false then
    .error (.importError piperImportMsg)
  else if fsExists fs model_path = false then
    .error (.fileNotFoundError ("Model not found: " ++ model_path))
  else
    match loadResult with
    | .error e => .error e
    | .ok _ =>
        .ok { model_path := model_path, speaker_id := speaker_id,
              length_scale := length_scale, noise_scale := noise_scale,
              noise_w := noise_w, volume := volume,
              normalize_audio := normalize_audio, use_cuda := use_cuda,
              voice := (),
              syn_config :=
                { volume := volume, length_scale := length_scale,
                  noise_scale := noise_scale, noise_w_scale := noise_w,
                  normalize_audio := normalize_audio,
                  speaker_id := speaker_id } }

/-- Modelled from the spec: the Piper adapter calls
`generate_cache_file_name` without an extension argument (line 105); the
interface default lives in `tts_interface.py`, which is not among the
source files. The adapter writes a waveform container (spec section 4.3),
so the default extension is `wav`. -/
def piperDefaultExt : String := "wav"

/-- The target path of a Piper `generate_audio` call (line 105). -/
def piperFileName (stem : Option String) (freshId : String) : String :=
  generate_cache_file_name stem piperDefaultExt freshId

/-- Piper `generate_audio` (lines 93-117). `synthWav` is
`self.voice.synthesize_wav` on the given text and synthesis config,
returning the produced bytes or raising; `openOk` is whether
`wave.open(file_name, "wb")` succeeds (on success it creates/truncates
the file before synthesis runs). Every exception is caught: the result is
`some path` or `none`, never a propagated error. `self` is threaded to
witness that the method assigns no attribute. -/
def piper_generate (eng : PiperEngine)
    (synthWav : String → SynthesisConfig → Except Err (List Nat))
    (openOk : Bool) (fs : FileSystem) (text : String) (stem : Option String)
    (freshId : String) :
    Option String × FileSystem × PiperEngine :=
  let file_name := piperFileName stem freshId
  if openOk then
    match synthWav text eng.syn_config with
    | .ok content => (some file_name, fsWrite fs file_name content, eng)
    | .error _ => (none, fsWrite fs file_name [], eng)
  else
    (none, fs, eng)

/-! ## HTTP-server adapter (Voicevox, `voicevox_tts.py`) -/

/-- The JSON object returned by the `audio_query` endpoint: its four
prosody scale fields, plus `rest`, an opaque rendering of every other
key-value pair of the object (untouched by the adapter). -/
structure AudioQuery where
  speedScale : Rat
  pitchScale : Rat
  intonationScale : Rat
  volumeScale : Rat
  rest : List (String × String)
deriving DecidableEq, Repr

/-- Configuration captured by the Voicevox `TTSEngine.__init__`
(lines 28-36). -/
structure VoicevoxEngine where
  client_url : String
  voicevox_speaker_id : Int
  pitch : Rat
  speed : Rat
  intonation : Rat
  volume : Rat
  file_extension : String
  new_audio_dir : String
deriving DecidableEq, Repr

/-- Voicevox `TTSEngine.__init__` (lines 8-39). Pure configuration
capture; `file_extension` is fixed to `wav` and `new_audio_dir` to
`cache`. The `os.makedirs` side effect (lines 38-39) only creates a
directory and no claim depends on it, so it is not modelled. -/
def voicevox_init (client_url : String) (voicevox_speaker_id : Int)
    (pitch speed intonation volume : Rat) : VoicevoxEngine :=
  { client_url := client_url, voicevox_speaker_id := voicevox_speaker_id,
    pitch := pitch, speed := speed, intonation := intonation,
    volume := volume, file_extension := "wav", new_audio_dir := "cache" }

/-- The target path of a Voicevox `generate_audio` call (line 52). -/
def voicevoxFileName (eng : VoicevoxEngine) (stem : Option String)
    (freshId : String) : String :=
  generate_cache_file_name stem eng.file_extension freshId

/-- The in-place mutation of the fetched query object (lines 68-72):
overwrite exactly the four scale fields with configured values. -/
def voicevoxSynthesisBody (eng : VoicevoxEngine) (q : AudioQuery) :
    AudioQuery :=
  { q with speedScale := eng.speed, pitchScale := eng.pitch,
           intonationScale := eng.intonation, volumeScale := eng.volume }

/-- Voicevox `generate_audio` (lines 41-97). `queryBackend` is the POST to
`{client_url}/audio_query` with `(text, speaker)` as query parameters,
returning the parsed JSON or raising (network failure or `raise_for_status`
on non-2xx); `synthBackend` is the POST to `{client_url}/synthesis` with
`speaker` as query parameter and the mutated query object as JSON body,
returning the audio bytes or raising; `writeOk` is whether the local
write succeeds (`open` creates/truncates the file before `f.write` runs).
Every exception is caught: the result is `some path` or `none`, never a
propagated error. `self` is threaded to witness that the method assigns
no attribute. -/
def voicevox_generate (eng : VoicevoxEngine)
    (queryBackend : String → String → Int → Except Err AudioQuery)
    (synthBackend : String → Int → AudioQuery → Except Err (List Nat))
    (writeOk : Bool) (fs : FileSystem) (text : String) (stem : Option String)
    (freshId : String) :
    Option String × FileSystem × VoicevoxEngine :=
  let file_name := voicevoxFileName eng stem freshId
  match queryBackend (eng.client_url ++ "/audio_query") text
      eng.voicevox_speaker_id with
  | .error _ => (none, fs, eng)
  | .ok audio_query =>
      let body := voicevoxSynthesisBody eng audio_query
      match synthBackend (eng.client_url ++ "/synthesis")
          eng.voicevox_speaker_id body with
      | .error _ => (none, fs, eng)
      | .ok content =>
          if writeOk then
            (some file_name, fsWrite fs file_name content, eng)
          else
            (none, fsWrite fs file_name [], eng)

/-! ## Sample configurations used by concrete witnesses -/

/-- A sample Cartesia engine with an initialized client. -/
def sampleCartesia : CartesiaEngine :=
  { api_key := "key", voice_id := "6ccbfb76-1fc6-48f7-b71d-91ac6298247b",
    model_id := "sonic-3", output_format := "wav", language := "en",
    emotion := "neutral", volume := 1, speed := 1, client := some () }

/-- The sample Cartesia engine with a falsy stored client handle. -/
def sampleCartesiaNoClient : CartesiaEngine :=
  { sampleCartesia with client := none }

/-- A sample Piper engine (default construction parameters). -/
def samplePiper : PiperEngine :=
  { model_path := "models/piper/zh_CN-huayan-medium.onnx", speaker_id := 0,
    length_scale := 1, noise_scale := 667/1000, noise_w := 4/5, volume := 1,
    normalize_audio := true, use_cuda := false, voice := (),
    syn_config :=
      { volume := 1, length_scale := 1, noise_scale := 667/1000,
        noise_w_scale := 4/5, normalize_audio := true, speaker_id := 0 } }

/-- A sample Voicevox engine (default construction parameters). -/
def sampleVoicevox : VoicevoxEngine :=
  voicevox_init "http://127.0.0.1:50021" 8 0 1 1 1

/-! ## Claims -/

/-- Claim C10: on the cloud adapter, a falsy stored client handle makes
`generate_audio` return the literal string
`Cartesia client not initialized. Cannot generate audio.` — an `.ok`
result (no exception, not an absent result) — with the filesystem
untouched (lines 105-107 of cartesia_tts.py). -/
theorem cartesia_no_client_returns_message (eng : CartesiaEngine)
    (backend : CartesiaRequest → Except Err (List (List Nat)))
    (openOk : Bool) (writeFail : Option Nat) (fs : FileSystem)
    (text : String) (stem : Option String) (freshId : String)
    (hc : eng.client = none) :
    cartesia_generate eng backend openOk writeFail fs text stem freshId
      = (.ok cartesiaNoClientMsg, fs, eng) := by
  unfold cartesia_generate
  rw [hc]

/-- Concrete witness for C10's theorem. -/
theorem cartesia_no_client_returns_message_witness :
    cartesia_generate sampleCartesiaNoClient
        (fun _ => .error (.vendorError "unreachable")) true none
        [("cache/x.wav", [1])] "hi" (some "x") "f"
      = (.ok cartesiaNoClientMsg, [("cache/x.wav", [1])],
         sampleCartesiaNoClient) :=
  cartesia_no_client_returns_message sampleCartesiaNoClient
    (fun _ => .error (.vendorError "unreachable")) true none
    [("cache/x.wav", [1])] "hi" (some "x") "f" rfl

/-- Claim C6: constructing the Piper adapter with a model path that does
not exist raises `FileNotFoundError` during construction itself — for
every possible outcome of model loading, i.e. before loading is attempted
— and no engine value is produced (lines 65-72 of piper_tts.py). -/
theorem piper_init_missing_model (fs : FileSystem)
    (loadResult : Except Err Unit) (model_path : String) (speaker_id : Int)
    (length_scale noise_scale noise_w volume : Rat)
    (normalize_audio use_cuda : Bool)
    (h : fsExists fs model_path = false) :
    piper_init true fs loadResult model_path speaker_id length_scale
        noise_scale noise_w volume normalize_audio use_cuda
      = .error (.fileNotFoundError ("Model not found: " ++ model_path)) := by
  unfold piper_init
  simp [h]

/-- Concrete witness for C6's theorem. -/
theorem piper_init_missing_model_witness :
    piper_init true [] (.ok ()) "models/missing.onnx" 0 1 (667/1000) (4/5)
        1 true false
      = .error (.fileNotFoundError "Model not found: models/missing.onnx") :=
  piper_init_missing_model [] (.ok ()) "models/missing.onnx" 0 1 (667/1000)
    (4/5) 1 true false rfl

/-- Claim C2: on the cloud adapter with an initialized client, every
exception raised during the synthesis request or during writing leaves no
target file on disk and is re-raised to the caller (lines 141-151 of
cartesia_tts.py). The three exception sources of the model are covered:
the vendor request raising, `open` raising, and a chunk write raising. -/
theorem cartesia_failure_cleans_and_reraises (eng : CartesiaEngine)
    (backend : CartesiaRequest → Except Err (List (List Nat)))
    (openOk : Bool) (writeFail : Option Nat) (fs : FileSystem)
    (text : String) (stem : Option String) (freshId : String)
    (hc : eng.client = some ()) :
    (∀ e, backend (cartesiaRequest eng text) = .error e →
      (cartesia_generate eng backend openOk writeFail fs text stem
          freshId).1 = .error e ∧
      fsExists (cartesia_generate eng backend openOk writeFail fs text stem
          freshId).2.1 (cartesiaFileName eng stem freshId) = false)
    ∧ (∀ chunks, backend (cartesiaRequest eng text) = .ok chunks →
        openOk = false →
      (cartesia_generate eng backend openOk writeFail fs text stem
          freshId).1 = .error .writeError ∧
      fsExists (cartesia_generate eng backend openOk writeFail fs text stem
          freshId).2.1 (cartesiaFileName eng stem freshId) = false)
    ∧ (∀ chunks k, backend (cartesiaRequest eng text) = .ok chunks →
        openOk = true → writeFail = some k → k < chunks.length →
      (cartesia_generate eng backend openOk writeFail fs text stem
          freshId).1 = .error .writeError ∧
      fsExists (cartesia_generate eng backend openOk writeFail fs text stem
          freshId).2.1 (cartesiaFileName eng stem freshId) = false) := by
  refine ⟨?_, ?_, ?_⟩
  · intro e he
    simp only [cartesia_generate, hc, he]
    exact ⟨by simp, fsExists_cleanupPartial fs _⟩
  · intro chunks hb hopen
    simp only [cartesia_generate, hc, hb, hopen]
    exact ⟨by simp, fsExists_cleanupPartial fs _⟩
  · intro chunks k hb hopen hwf hk
    simp only [cartesia_generate, hc, hb, hopen, hwf, if_pos hk]
    exact ⟨by simp, fsExists_cleanupPartial _ _⟩

/-- Concrete witness for C2's theorem: a vendor failure with a stale file
already at the target path; afterwards the file is gone and the vendor
exception is the surfaced one. -/
theorem cartesia_failure_cleans_and_reraises_witness :
    (cartesia_generate sampleCartesia
        (fun _ => .error (.vendorError "boom")) true none
        [("cache/x.wav", [7])] "hi" (some "x") "f").1
      = .error (.vendorError "boom")
    ∧ fsExists (cartesia_generate sampleCartesia
        (fun _ => .error (.vendorError "boom")) true none
        [("cache/x.wav", [7])] "hi" (some "x") "f").2.1
        (cartesiaFileName sampleCartesia (some "x") "f") = false
    ∧ cartesiaFileName sampleCartesia (some "x") "f" = "cache/x.wav" :=
  ⟨(cartesia_failure_cleans_and_reraises sampleCartesia
      (fun _ => .error (.vendorError "boom")) true none
      [("cache/x.wav", [7])] "hi" (some "x") "f" rfl).1
      (.vendorError "boom") rfl |>.1,
   (cartesia_failure_cleans_and_reraises sampleCartesia
      (fun _ => .error (.vendorError "boom")) true none
      [("cache/x.wav", [7])] "hi" (some "x") "f" rfl).1
      (.vendorError "boom") rfl |>.2,
   rfl⟩

/-- Claim C3: the local-model (Piper) and HTTP-server (Voicevox) adapters
catch every exception occurring during synthesis — model inference, HTTP
round-trip or non-2xx status (a `queryBackend`/`synthBackend` error), or
the local file write — and return `none`; their embedded result type has
no exception channel because the source catches all exceptions
(piper_tts.py lines 115-117, voicevox_tts.py lines 95-97). -/
theorem local_adapters_swallow_failures :
    (∀ (eng : PiperEngine) synthWav (openOk : Bool) (fs : FileSystem)
        (text : String) (stem : Option String) (freshId : String) e,
      synthWav text eng.syn_config = .error e →
      (piper_generate eng synthWav openOk fs text stem freshId).1 = none)
    ∧ (∀ (eng : PiperEngine) synthWav (fs : FileSystem) (text : String)
        (stem : Option String) (freshId : String),
      (piper_generate eng synthWav false fs text stem freshId).1 = none)
    ∧ (∀ (eng : VoicevoxEngine) queryBackend synthBackend (writeOk : Bool)
        (fs : FileSystem) (text : String) (stem : Option String)
        (freshId : String) e,
      queryBackend (eng.client_url ++ "/audio_query") text
          eng.voicevox_speaker_id = .error e →
      (voicevox_generate eng queryBackend synthBackend writeOk fs text stem
          freshId).1 = none)
    ∧ (∀ (eng : VoicevoxEngine) queryBackend synthBackend (writeOk : Bool)
        (fs : FileSystem) (text : String) (stem : Option String)
        (freshId : String) q e,
      queryBackend (eng.client_url ++ "/audio_query") text
          eng.voicevox_speaker_id = .ok q →
      synthBackend (eng.client_url ++ "/synthesis") eng.voicevox_speaker_id
          (voicevoxSynthesisBody eng q) = .error e →
      (voicevox_generate eng queryBackend synthBackend writeOk fs text stem
          freshId).1 = none)
    ∧ (∀ (eng : VoicevoxEngine) queryBackend synthBackend (fs : FileSystem)
        (text : String) (stem : Option String) (freshId : String) q content,
      queryBackend (eng.client_url ++ "/audio_query") text
          eng.voicevox_speaker_id = .ok q →
      synthBackend (eng.client_url ++ "/synthesis") eng.voicevox_speaker_id
          (voicevoxSynthesisBody eng q) = .ok content →
      (voicevox_generate eng queryBackend synthBackend false fs text stem
          freshId).1 = none) := by
  refine ⟨?_, ?_, ?_, ?_, ?_⟩
  · intro eng synthWav openOk fs text stem freshId e he
    cases openOk <;> simp [piper_generate, he]
  · intro eng synthWav fs text stem freshId
    simp [piper_generate]
  · intro eng queryBackend synthBackend writeOk fs text stem freshId e he
    simp [voicevox_generate, he]
  · intro eng queryBackend synthBackend writeOk fs text stem freshId q e hq hs
    simp [voicevox_generate, hq, hs]
  · intro eng queryBackend synthBackend fs text stem freshId q content hq hs
    simp [voicevox_generate, hq, hs]

/-- Concrete witness for C3's theorem: both adapters, forced failure in
each stage, result absent. -/
theorem local_adapters_swallow_failures_witness :
    (piper_generate samplePiper
        (fun _ _ => .error (.vendorError "inference failed")) true []
        "hi" (some "a") "f").1 = none
    ∧ (piper_generate samplePiper (fun _ _ => .ok [1, 2]) false []
        "hi" (some "a") "f").1 = none
    ∧ (voicevox_generate sampleVoicevox
        (fun _ _ _ => .error (.httpStatusError 500))
        (fun _ _ _ => .ok [1]) true [] "hi" (some "a") "f").1 = none
    ∧ (voicevox_generate sampleVoicevox
        (fun _ _ _ => .ok ⟨1, 0, 1, 1, []⟩)
        (fun _ _ _ => .error (.httpStatusError 422)) true [] "hi" (some "a")
        "f").1 = none
    ∧ (voicevox_generate sampleVoicevox
        (fun _ _ _ => .ok ⟨1, 0, 1, 1, []⟩)
        (fun _ _ _ => .ok [9]) false [] "hi" (some "a") "f").1 = none :=
  ⟨local_adapters_swallow_failures.1 samplePiper
      (fun _ _ => .error (.vendorError "inference failed")) true []
      "hi" (some "a") "f" (.vendorError "inference failed") rfl,
   local_adapters_swallow_failures.2.1 samplePiper
      (fun _ _ => .ok [1, 2]) [] "hi" (some "a") "f",
   local_adapters_swallow_failures.2.2.1 sampleVoicevox
      (fun _ _ _ => .error (.httpStatusError 500))
      (fun _ _ _ => .ok [1]) true [] "hi" (some "a") "f"
      (.httpStatusError 500) rfl,
   local_adapters_swallow_failures.2.2.2.1 sampleVoicevox
      (fun _ _ _ => .ok ⟨1, 0, 1, 1, []⟩)
      (fun _ _ _ => .error (.httpStatusError 422)) true [] "hi" (some "a")
      "f" ⟨1, 0, 1, 1, []⟩ (.httpStatusError 422) rfl rfl,
   local_adapters_swallow_failures.2.2.2.2 sampleVoicevox
      (fun _ _ _ => .ok ⟨1, 0, 1, 1, []⟩)
      (fun _ _ _ => .ok [9]) [] "hi" (some "a") "f" ⟨1, 0, 1, 1, []⟩ [9]
      rfl rfl⟩

/-- The Voicevox engine of the spec's example scenario: speaker 8 and
speed 1.2 (= 6/5). -/
def voicevoxSpeedEngine : VoicevoxEngine :=
  voicevox_init "http://127.0.0.1:50021" 8 0 (6/5) 1 1

/-- A sample audio-query object as returned by the mocked `audio_query`
endpoint, with one extra field left untouched by the adapter. -/
def sampleQuery : AudioQuery :=
  { speedScale := 1, pitchScale := 0, intonationScale := 1, volumeScale := 1,
    rest := [("outputSamplingRate", "24000")] }

/-- A mocked synthesis endpoint that only accepts a body carrying
`speedScale = 1.2`. -/
def speedCheckSynth : String → Int → AudioQuery → Except Err (List Nat) :=
  fun _ _ body =>
    if body.speedScale = 6/5 then .ok [0, 1]
    else .error (.vendorError "wrong speedScale")

/-- Claim C4: the JSON body POSTed to the Voicevox synthesis endpoint is
the object returned by `audio_query` with exactly its four scale fields
overwritten by the configured values (lines 68-84 of voicevox_tts.py):
(1) the mutated body keeps every other field and carries the configured
scales; (2) `generate_audio` consults the synthesis backend only at that
mutated body; (3) the spec's scenario: an engine with speaker 8 and speed
1.2, a mocked server accepting only `speedScale = 1.2`, text `hello`,
stem `greet` — the call succeeds and returns a path ending in
`greet.wav`. -/
theorem voicevox_synthesis_body_overwrites_scales :
    (∀ (eng : VoicevoxEngine) (q : AudioQuery),
      voicevoxSynthesisBody eng q =
        { speedScale := eng.speed, pitchScale := eng.pitch,
          intonationScale := eng.intonation, volumeScale := eng.volume,
          rest := q.rest })
    ∧ (∀ (eng : VoicevoxEngine) queryBackend s₁ s₂ (writeOk : Bool)
        (fs : FileSystem) (text : String) (stem : Option String)
        (freshId : String) q,
      queryBackend (eng.client_url ++ "/audio_query") text
          eng.voicevox_speaker_id = .ok q →
      s₁ (eng.client_url ++ "/synthesis") eng.voicevox_speaker_id
          (voicevoxSynthesisBody eng q)
        = s₂ (eng.client_url ++ "/synthesis") eng.voicevox_speaker_id
          (voicevoxSynthesisBody eng q) →
      voicevox_generate eng queryBackend s₁ writeOk fs text stem freshId
        = voicevox_generate eng queryBackend s₂ writeOk fs text stem freshId)
    ∧ (voicevox_generate voicevoxSpeedEngine (fun _ _ _ => .ok sampleQuery)
        speedCheckSynth true [] "hello" (some "greet") "f"
        = (some "cache/greet.wav", [("cache/greet.wav", [0, 1])],
           voicevoxSpeedEngine)
      ∧ "cache/greet.wav" = "cache/" ++ "greet.wav") := by
  refine ⟨fun eng q => rfl, ?_, ?_, rfl⟩
  · intro eng queryBackend s₁ s₂ writeOk fs text stem freshId q hq hs
    simp only [voicevox_generate, hq]
    rw [hs]
  · have hb : speedCheckSynth (voicevoxSpeedEngine.client_url ++ "/synthesis")
        voicevoxSpeedEngine.voicevox_speaker_id
        (voicevoxSynthesisBody voicevoxSpeedEngine sampleQuery)
        = .ok [0, 1] := by
      norm_num [speedCheckSynth, voicevoxSynthesisBody, voicevoxSpeedEngine,
        voicevox_init, sampleQuery]
    simp only [voicevox_generate]
    rw [hb]
    simp [voicevoxFileName, voicevoxSpeedEngine, voicevox_init,
      generate_cache_file_name, fsWrite]

/-- Concrete witness for C4's theorem: the parametricity conjunct at the
scenario's engine, query and two agreeing synthesis backends. -/
theorem voicevox_synthesis_body_overwrites_scales_witness :
    voicevox_generate voicevoxSpeedEngine (fun _ _ _ => .ok sampleQuery)
        speedCheckSynth true [] "hello" (some "greet") "f"
      = voicevox_generate voicevoxSpeedEngine (fun _ _ _ => .ok sampleQuery)
        (fun _ _ _ => .ok [0, 1]) true [] "hello" (some "greet") "f" :=
  voicevox_synthesis_body_overwrites_scales.2.1 voicevoxSpeedEngine
    (fun _ _ _ => .ok sampleQuery) speedCheckSynth
    (fun _ _ _ => .ok [0, 1]) true [] "hello" (some "greet") "f"
    sampleQuery rfl
    (by norm_num [speedCheckSynth, voicevoxSynthesisBody, voicevoxSpeedEngine,
      voicevox_init, sampleQuery])

/-- Claim C5: the outbound Cartesia synthesis request carries exactly the
configured output-format descriptor, the configured model id, the full
input text as transcript, the configured language, a generation config of
the configured volume, speed and emotion, and the voice selector
`{mode: "id", id: configured voice id}` (lines 111-132 of
cartesia_tts.py); and `generate_audio` consults the backend only at that
request. -/
theorem cartesia_request_carries_config :
    (∀ (eng : CartesiaEngine) (text : String),
      cartesiaRequest eng text =
        { output_format :=
            if eng.output_format = "wav" then wav_output_format
            else mp3_output_format,
          model_id := eng.model_id, transcript := text,
          language := eng.language,
          generation_config :=
            { volume := eng.volume, speed := eng.speed,
              emotion := eng.emotion },
          voice := { mode := "id", id := eng.voice_id } })
    ∧ (∀ (eng : CartesiaEngine) b₁ b₂ (openOk : Bool)
        (writeFail : Option Nat) (fs : FileSystem) (text : String)
        (stem : Option String) (freshId : String),
      b₁ (cartesiaRequest eng text) = b₂ (cartesiaRequest eng text) →
      cartesia_generate eng b₁ openOk writeFail fs text stem freshId
        = cartesia_generate eng b₂ openOk writeFail fs text stem freshId) := by
  refine ⟨fun eng text => rfl, ?_⟩
  intro eng b₁ b₂ openOk writeFail fs text stem freshId h
  unfold cartesia_generate
  cases eng.client with
  | none => rfl
  | some u => rw [h]

/-- Concrete witness for C5's theorem: the request at a sample engine,
and two backends agreeing at the request (one of them checks the
transcript) yielding identical calls. -/
theorem cartesia_request_carries_config_witness :
    cartesiaRequest sampleCartesia "hello"
      = { output_format := wav_output_format, model_id := "sonic-3",
          transcript := "hello", language := "en",
          generation_config := { volume := 1, speed := 1,
                                 emotion := "neutral" },
          voice := { mode := "id",
                     id := "6ccbfb76-1fc6-48f7-b71d-91ac6298247b" } }
    ∧ cartesia_generate sampleCartesia
        (fun r => if r.transcript = "hello" then .ok [[1]]
                  else .error (.vendorError "wrong transcript"))
        true none [] "hello" (some "x") "f"
      = cartesia_generate sampleCartesia (fun _ => .ok [[1]])
        true none [] "hello" (some "x") "f" :=
  ⟨by simpa using cartesia_request_carries_config.1 sampleCartesia "hello",
   cartesia_request_carries_config.2 sampleCartesia
     (fun r => if r.transcript = "hello" then .ok [[1]]
               else .error (.vendorError "wrong transcript"))
     (fun _ => .ok [[1]]) true none [] "hello" (some "x") "f"
     (by simp [cartesiaRequest])⟩

/-- Claim C7: a missing client library makes the Cartesia and Piper
constructors raise `ImportError` (cartesia_tts.py lines 72-75,
piper_tts.py lines 51-54); a successfully constructed adapter implies the
library was available; and the Cartesia `generate_audio` never surfaces an
`ImportError` (its only error sources are the vendor call and the local
write), so the availability check happens only in the constructor. The
Piper `generate_audio` propagates no exception at all (its embedded result
type is `Option`), so it cannot fail for that reason either. -/
theorem import_error_only_at_construction :
    (∀ clientInit api_key voice_id model_id output_format language emotion
        (volume speed : Rat),
      cartesia_init false clientInit api_key voice_id model_id output_format
          language emotion volume speed
        = .error (.importError cartesiaImportMsg))
    ∧ (∀ (fs : FileSystem) loadResult model_path (speaker_id : Int)
        (length_scale noise_scale noise_w volume : Rat)
        (normalize_audio use_cuda : Bool),
      piper_init false fs loadResult model_path speaker_id length_scale
          noise_scale noise_w volume normalize_audio use_cuda
        = .error (.importError piperImportMsg))
    ∧ (∀ (available : Bool) clientInit api_key voice_id model_id
        output_format language emotion (volume speed : Rat) eng,
      cartesia_init available clientInit api_key voice_id model_id
          output_format language emotion volume speed = .ok eng →
      available = true)
    ∧ (∀ (available : Bool) (fs : FileSystem) loadResult model_path
        (speaker_id : Int) (length_scale noise_scale noise_w volume : Rat)
        (normalize_audio use_cuda : Bool) eng,
      piper_init available fs loadResult model_path speaker_id length_scale
          noise_scale noise_w volume normalize_audio use_cuda = .ok eng →
      available = true)
    ∧ (∀ (eng : CartesiaEngine) backend (openOk : Bool)
        (writeFail : Option Nat) (fs : FileSystem) (text : String)
        (stem : Option String) (freshId : String),
      (∀ r m, backend r ≠ .error (.importError m)) →
      ∀ m, (cartesia_generate eng backend openOk writeFail fs text stem
          freshId).1 ≠ .error (.importError m)) := by
  refine ⟨?_, ?_, ?_, ?_, ?_⟩
  · intro clientInit api_key voice_id model_id output_format language
      emotion volume speed
    simp [cartesia_init]
  · intro fs loadResult model_path speaker_id length_scale noise_scale
      noise_w volume normalize_audio use_cuda
    simp [piper_init]
  · intro available clientInit api_key voice_id model_id output_format
      language emotion volume speed eng h
    cases available with
    | true => rfl
    | false => simp [cartesia_init] at h
  · intro available fs loadResult model_path speaker_id length_scale
      noise_scale noise_w volume normalize_audio use_cuda eng h
    cases available with
    | true => rfl
    | false => simp [piper_init] at h
  · intro eng backend openOk writeFail fs text stem freshId h m
    unfold cartesia_generate
    cases eng.client with
    | none => simp
    | some u =>
        cases hb : backend (cartesiaRequest eng text) with
        | error e =>
            simp only [hb]
            intro hh
            apply h (cartesiaRequest eng text) m
            rw [hb]
            simpa using hh
        | ok chunks =>
            cases openOk with
            | false => simp [hb]
            | true =>
                cases writeFail with
                | none => simp [hb]
                | some k =>
                    by_cases hk : k < chunks.length
                    · simp [hb, hk]
                    · simp [hb, hk]

/-- Concrete witness for C7's theorem: unavailable libraries at
construction, and a constructed Cartesia adapter with a vendor-failing
backend never surfacing an `ImportError`. -/
theorem import_error_only_at_construction_witness :
    cartesia_init false (.ok ()) "key" "v" "sonic-3" "wav" "en" "neutral"
        1 1 = .error (.importError cartesiaImportMsg)
    ∧ piper_init false [] (.ok ()) "m.onnx" 0 1 1 1 1 true false
        = .error (.importError piperImportMsg)
    ∧ (true = true)
    ∧ ∀ m, (cartesia_generate sampleCartesia
        (fun _ => .error (.vendorError "boom")) true none [] "hi"
        (some "x") "f").1 ≠ .error (.importError m) :=
  ⟨import_error_only_at_construction.1 (.ok ()) "key" "v" "sonic-3" "wav"
      "en" "neutral" 1 1,
   import_error_only_at_construction.2.1 [] (.ok ()) "m.onnx" 0 1 1 1 1
      true false,
   import_error_only_at_construction.2.2.1 true (.ok ()) "key"
      "6ccbfb76-1fc6-48f7-b71d-91ac6298247b" "sonic-3" "wav" "en" "neutral"
      1 1 sampleCartesia rfl,
   fun m => import_error_only_at_construction.2.2.2.2 sampleCartesia
      (fun _ => .error (.vendorError "boom")) true none [] "hi" (some "x")
      "f" (fun r mm => by simp) m⟩

/-- Claim C8: every successful `generate_audio` call returns the path
derived with the extension fixed by configuration: the Cartesia adapter
passes its configured `output_format` to cache-name derivation
(cartesia_tts.py line 109) whenever it produces a file path (i.e. when a
client is held — without one it returns an error message, not a path, see
C10's source lines), and a constructed Voicevox adapter passes its
`file_extension` field, fixed to `wav` at construction (voicevox_tts.py
lines 35, 52). -/
theorem output_extension_matches_config :
    (∀ (eng : CartesiaEngine) backend (openOk : Bool)
        (writeFail : Option Nat) (fs : FileSystem) (text : String)
        (stem : Option String) (freshId : String) (p : String),
      eng.client = some () →
      (cartesia_generate eng backend openOk writeFail fs text stem
          freshId).1 = .ok p →
      p = generate_cache_file_name stem eng.output_format freshId)
    ∧ (∀ url (spk : Int) (pi sp into vol : Rat) queryBackend synthBackend
        (writeOk : Bool) (fs : FileSystem) (text : String)
        (stem : Option String) (freshId : String) (p : String),
      (voicevox_generate (voicevox_init url spk pi sp into vol)
          queryBackend synthBackend writeOk fs text stem freshId).1
        = some p →
      p = generate_cache_file_name stem "wav" freshId)
    ∧ (∀ url (spk : Int) (pi sp into vol : Rat),
      (voicevox_init url spk pi sp into vol).file_extension = "wav") := by
  refine ⟨?_, ?_, fun url spk pi sp into vol => rfl⟩
  · intro eng backend openOk writeFail fs text stem freshId p hc hok
    unfold cartesia_generate at hok
    rw [hc] at hok
    cases hb : backend (cartesiaRequest eng text) with
    | error e => simp [hb] at hok
    | ok chunks =>
        simp only [hb] at hok
        cases openOk with
        | false => simp at hok
        | true =>
            cases writeFail with
            | none =>
                simp at hok
                subst hok
                rfl
            | some k =>
                by_cases hk : k < chunks.length
                · simp [hk] at hok
                · simp [hk] at hok
                  subst hok
                  rfl
  · intro url spk pi sp into vol queryBackend synthBackend writeOk fs text
      stem freshId p hok
    unfold voicevox_generate at hok
    cases hq : queryBackend ((voicevox_init url spk pi sp into vol).client_url
        ++ "/audio_query") text
        (voicevox_init url spk pi sp into vol).voicevox_speaker_id with
    | error e => simp [hq] at hok
    | ok q =>
        simp only [hq] at hok
        cases hs : synthBackend ((voicevox_init url spk pi sp into
            vol).client_url ++ "/synthesis")
            (voicevox_init url spk pi sp into vol).voicevox_speaker_id
            (voicevoxSynthesisBody (voicevox_init url spk pi sp into vol)
              q) with
        | error e => simp [hs] at hok
        | ok content =>
            simp only [hs] at hok
            cases writeOk with
            | false => simp at hok
            | true =>
                simp at hok
                subst hok
                rfl

/-- Concrete witness for C8's theorem: one successful call per adapter,
each returning the path with the configured extension. -/
theorem output_extension_matches_config_witness :
    (cartesia_generate sampleCartesia (fun _ => .ok [[1]]) true none []
        "hi" (some "x") "f").1 = .ok "cache/x.wav"
    ∧ "cache/x.wav" = generate_cache_file_name (some "x")
        sampleCartesia.output_format "f"
    ∧ (voicevox_generate sampleVoicevox (fun _ _ _ => .ok sampleQuery)
        (fun _ _ _ => .ok [2]) true [] "hi" (some "y") "g").1
        = some "cache/y.wav"
    ∧ "cache/y.wav" = generate_cache_file_name (some "y") "wav" "g" :=
  ⟨rfl,
   output_extension_matches_config.1 sampleCartesia (fun _ => .ok [[1]])
     true none [] "hi" (some "x") "f" "cache/x.wav" rfl rfl,
   rfl,
   output_extension_matches_config.2.1 "http://127.0.0.1:50021" 8 0 1 1 1
     (fun _ _ _ => .ok sampleQuery) (fun _ _ _ => .ok [2]) true [] "hi"
     (some "y") "g" "cache/y.wav" rfl⟩

/-- Claim C9: `generate_audio` leaves the adapter's configuration — every
field captured at construction, including the client/model handles and
the prebuilt synthesis config — unchanged on every path: the embedded
`self` threaded through each adapter comes back equal to the input on
success and on failure alike (none of the three method bodies assigns any
attribute). -/
theorem generate_audio_preserves_config :
    (∀ (eng : CartesiaEngine) backend (openOk : Bool)
        (writeFail : Option Nat) (fs : FileSystem) (text : String)
        (stem : Option String) (freshId : String),
      (cartesia_generate eng backend openOk writeFail fs text stem
          freshId).2.2 = eng)
    ∧ (∀ (eng : PiperEngine) synthWav (openOk : Bool) (fs : FileSystem)
        (text : String) (stem : Option String) (freshId : String),
      (piper_generate eng synthWav openOk fs text stem freshId).2.2 = eng)
    ∧ (∀ (eng : VoicevoxEngine) queryBackend synthBackend (writeOk : Bool)
        (fs : FileSystem) (text : String) (stem : Option String)
        (freshId : String),
      (voicevox_generate eng queryBackend synthBackend writeOk fs text stem
          freshId).2.2 = eng) := by
  refine ⟨?_, ?_, ?_⟩
  · intro eng backend openOk writeFail fs text stem freshId
    simp only [cartesia_generate]
    repeat' split
    all_goals rfl
  · intro eng synthWav openOk fs text stem freshId
    simp only [piper_generate]
    repeat' split
    all_goals rfl
  · intro eng queryBackend synthBackend writeOk fs text stem freshId
    simp only [voicevox_generate]
    repeat' split
    all_goals rfl

/-- Counterexample to claim C1 as stated: for the Piper adapter, a
synthesis failure after `wave.open` has created the target file is caught
and swallowed (piper_tts.py lines 115-117) with no cleanup, so after the
call fails the partially written file is still on disk at the target
path. -/
theorem piper_failure_leaves_partial_file :
    (piper_generate samplePiper
        (fun _ _ => .error (.vendorError "inference failed")) true []
        "hi" (some "out") "f").1 = none
    ∧ fsExists (piper_generate samplePiper
        (fun _ _ => .error (.vendorError "inference failed")) true []
        "hi" (some "out") "f").2.1 "cache/out.wav" = true :=
  ⟨rfl, rfl⟩

/-- Claim C1 (amended): only the cloud (Cartesia) adapter removes a
partially written file before the call completes — on a failure during
writing it deletes the target file and re-raises — while the local-model
(Piper) and HTTP-server (Voicevox) adapters catch the exception, return
an absent result, and leave the partially written file at the target
path. -/
theorem partial_file_cleanup_only_cloud :
    (∀ (eng : CartesiaEngine) backend chunks (k : Nat) (fs : FileSystem)
        (text : String) (stem : Option String) (freshId : String),
      eng.client = some () →
      backend (cartesiaRequest eng text) = .ok chunks →
      k < chunks.length →
      (cartesia_generate eng backend true (some k) fs text stem freshId).1
          = .error .writeError ∧
      fsExists (cartesia_generate eng backend true (some k) fs text stem
          freshId).2.1 (cartesiaFileName eng stem freshId) = false)
    ∧ (∀ (eng : PiperEngine) synthWav (fs : FileSystem) (text : String)
        (stem : Option String) (freshId : String) e,
      synthWav text eng.syn_config = .error e →
      (piper_generate eng synthWav true fs text stem freshId).1 = none ∧
      fsExists (piper_generate eng synthWav true fs text stem
          freshId).2.1 (piperFileName stem freshId) = true)
    ∧ (∀ (eng : VoicevoxEngine) queryBackend synthBackend (fs : FileSystem)
        (text : String) (stem : Option String) (freshId : String) q content,
      queryBackend (eng.client_url ++ "/audio_query") text
          eng.voicevox_speaker_id = .ok q →
      synthBackend (eng.client_url ++ "/synthesis") eng.voicevox_speaker_id
          (voicevoxSynthesisBody eng q) = .ok content →
      (voicevox_generate eng queryBackend synthBackend false fs text stem
          freshId).1 = none ∧
      fsExists (voicevox_generate eng queryBackend synthBackend false fs
          text stem freshId).2.1 (voicevoxFileName eng stem freshId)
        = true) := by
  refine ⟨?_, ?_, ?_⟩
  · intro eng backend chunks k fs text stem freshId hc hb hk
    simp only [cartesia_generate, hc, hb, if_pos hk]
    exact ⟨by simp, fsExists_cleanupPartial _ _⟩
  · intro eng synthWav fs text stem freshId e he
    constructor
    · simp [piper_generate, he]
    · simp only [piper_generate, he]
      simpa using fsExists_fsWrite fs (piperFileName stem freshId) []
  · intro eng queryBackend synthBackend fs text stem freshId q content hq hs
    constructor
    · simp [voicevox_generate, hq, hs]
    · simp only [voicevox_generate, hq, hs]
      simpa using fsExists_fsWrite fs (voicevoxFileName eng stem freshId) []

/-- Concrete witness for the amended C1 theorem: a mid-write failure on
each adapter — Cartesia raises with the file removed, Piper and Voicevox
return `none` with the partial file still present. -/
theorem partial_file_cleanup_only_cloud_witness :
    ((cartesia_generate sampleCartesia (fun _ => .ok [[1], [2]]) true
        (some 1) [] "hi" (some "w") "f").1 = .error .writeError
      ∧ fsExists (cartesia_generate sampleCartesia (fun _ => .ok [[1], [2]])
        true (some 1) [] "hi" (some "w") "f").2.1
        (cartesiaFileName sampleCartesia (some "w") "f") = false)
    ∧ ((piper_generate samplePiper (fun _ _ => .error (.vendorError "x"))
        true [] "hi" (some "w2") "f").1 = none
      ∧ fsExists (piper_generate samplePiper
        (fun _ _ => .error (.vendorError "x")) true [] "hi" (some "w2")
        "f").2.1 (piperFileName (some "w2") "f") = true)
    ∧ ((voicevox_generate sampleVoicevox (fun _ _ _ => .ok sampleQuery)
        (fun _ _ _ => .ok [3]) false [] "hi" (some "w3") "f").1 = none
      ∧ fsExists (voicevox_generate sampleVoicevox
        (fun _ _ _ => .ok sampleQuery) (fun _ _ _ => .ok [3]) false []
        "hi" (some "w3") "f").2.1
        (voicevoxFileName sampleVoicevox (some "w3") "f") = true) :=
  ⟨partial_file_cleanup_only_cloud.1 sampleCartesia
      (fun _ => .ok [[1], [2]]) [[1], [2]] 1 [] "hi" (some "w") "f" rfl rfl
      (by decide),
   partial_file_cleanup_only_cloud.2.1 samplePiper
      (fun _ _ => .error (.vendorError "x")) [] "hi" (some "w2") "f"
      (.vendorError "x") rfl,
   partial_file_cleanup_only_cloud.2.2 sampleVoicevox
      (fun _ _ _ => .ok sampleQuery) (fun _ _ _ => .ok [3]) [] "hi"
      (some "w3") "f" sampleQuery [3] rfl rfl⟩
